import Mathlib

/-!
Verification development for the config-reloader sidecar
(src/cmd/config-reloader/main.go): a shallow embedding of the readiness
gate, the actor wiring in main, the flag surface, and a spec-modelled
actor supervisor, with theorems about their behaviour.
-/

namespace ConfigReloader

/-! ### The readiness gate (main.go lines 82-111)

The gate is a goroutine looping on a select over the termination-signal
channel and a 500 ms ticker.  On each tick it performs
`resp, err := http.DefaultClient.Do(req)`, then executes the statement
`defer resp.Body.Close()`, then checks `err != nil` (logs and calls
`os.Exit(1)`), then checks `resp.StatusCode == http.StatusOK` (stops the
ticker, signals `done` and returns).  Receiving from `term` logs and
calls `os.Exit(0)`.
-/

/-- Result of one `http.DefaultClient.Do(req)` call: `resp` is `some status`
when a response object is returned and `none` when the transport fails;
`err` records whether the returned error value is non-nil.  Per the
contract of `http.Client.Do`, the error is non-nil exactly when the
response is nil. -/
structure DoResult where
  resp : Option Nat
  err : Bool
deriving DecidableEq, Repr

/-- A transport-level success carrying an HTTP status code (nil error). -/
def DoResult.ok (status : Nat) : DoResult := ⟨some status, false⟩

/-- A transport-level failure: nil response, non-nil error. -/
def DoResult.transportError : DoResult := ⟨none, true⟩

/-- Outcome of one iteration of the ticker branch of the gate loop. -/
inductive StepOut where
  /-- Evaluating `resp.Body` in the statement `defer resp.Body.Close()`
  dereferences the nil response pointer: runtime panic. -/
  | panicNilDeref
  /-- The `err != nil` branch: log the error and `os.Exit(1)`. -/
  | exitErr
  /-- `resp.StatusCode == 200`: stop the ticker, signal done, return. -/
  | ready
  /-- Any other status code: fall through and loop again. -/
  | notReady
deriving DecidableEq, Repr

/-- One iteration of the body of the `case <-ticker.C` branch
(main.go lines 94-107), with the statements in source order: the
`defer resp.Body.Close()` statement evaluates `resp.Body` (a nil pointer
dereference when `resp` is nil) before the `err != nil` check runs. -/
def pollStep (r : DoResult) : StepOut :=
  match r.resp with
  | none => StepOut.panicNilDeref
  | some s =>
    if r.err then StepOut.exitErr
    else if s = 200 then StepOut.ready
    else StepOut.notReady

/-- How the readiness-gate loop ends.  Each constructor carries the number
of health requests issued up to and including that point (for `Cancelled`
the number issued strictly before the signal was observed). -/
inductive GateResult where
  | Ready (polls : Nat)
  | Cancelled (polls : Nat)
  | ExitErr (polls : Nat)
  | PanicNil (polls : Nat)
  | Spin
deriving DecidableEq, Repr

/-- The gate loop from poll index `k` onward, with explicit fuel.  `env j`
is the result of the HTTP call at the `j`-th tick; `tb j = true` means the
termination signal is observed before the `j`-th tick is consumed, in
which case the `case <-term` branch runs (`os.Exit(0)`). -/
def runGateFrom (env : Nat → DoResult) (tb : Nat → Bool) : Nat → Nat → GateResult
  | 0, _ => GateResult.Spin
  | fuel + 1, k =>
    if tb k then GateResult.Cancelled k
    else
      match pollStep (env k) with
      | StepOut.panicNilDeref => GateResult.PanicNil (k + 1)
      | StepOut.exitErr => GateResult.ExitErr (k + 1)
      | StepOut.ready => GateResult.Ready (k + 1)
      | StepOut.notReady => runGateFrom env tb fuel (k + 1)

/-- The whole gate run, starting at the first tick. -/
def runGate (env : Nat → DoResult) (tb : Nat → Bool) (fuel : Nat) : GateResult :=
  runGateFrom env tb fuel 0

/-- Time in milliseconds at which the `k`-th (0-based) health request is
issued: `time.NewTicker(500 * time.Millisecond)` (main.go line 82)
delivers its first tick one full interval after creation, and the loop
issues requests only on ticks. -/
def pollTimeMs (k : Nat) : Nat := 500 * (k + 1)

/-- Process exit code produced by each gate outcome: `os.Exit(0)` on the
signal branch (line 92), `os.Exit(1)` on the error branch (line 99), exit
code 2 for a runtime panic in the goroutine; `Ready` lets `main` continue
into the supervisor phase and `Spin` never exits. -/
def GateResult.exitCode : GateResult → Option Nat
  | GateResult.Ready _ => none
  | GateResult.Cancelled _ => some 0
  | GateResult.ExitErr _ => some 1
  | GateResult.PanicNil _ => some 2
  | GateResult.Spin => none

/-- The signal-listener actor's run function (main.go lines 143-151):
select on the term channel or the cancel channel, log on the former, and
`return nil` on both paths.  The argument tells which branch fired; the
outcome is nil either way. -/
def signalActorRun : Bool → Option String := fun _ => none

/-- Running the gate for `fuel + d` steps from index `i` is running it for
`fuel` steps from index `i + d`, provided the first `d` ticks neither see
the termination signal nor leave the loop. -/
lemma runGateFrom_shift (env : Nat → DoResult) (tb : Nat → Bool) :
    ∀ d fuel i,
      (∀ j, j < d → tb (i + j) = false ∧ pollStep (env (i + j)) = StepOut.notReady) →
      runGateFrom env tb (fuel + d) i = runGateFrom env tb fuel (i + d) := by
  intro d
  induction d with
  | zero => intro fuel i _; rfl
  | succ d ih =>
    intro fuel i h
    have h0 := h 0 (Nat.succ_pos d)
    rw [Nat.add_zero] at h0
    have hstep : runGateFrom env tb (fuel + (d + 1)) i = runGateFrom env tb (fuel + d) (i + 1) := by
      show runGateFrom env tb ((fuel + d) + 1) i = runGateFrom env tb (fuel + d) (i + 1)
      simp [runGateFrom, h0.1, h0.2]
    rw [hstep, ih fuel (i + 1) ?_]
    · have : i + 1 + d = i + (d + 1) := by omega
      rw [this]
    · intro j hj
      have := h (j + 1) (by omega)
      have harg : i + (j + 1) = i + 1 + j := by omega
      rw [harg] at this
      exact this

/-- If the first `k` polls answer with a non-200 status, the signal never
fires, and the `k`-th poll answers 200, the gate ends `Ready` after
exactly `k + 1` health requests. -/
lemma runGate_ready_of (env : Nat → DoResult) (tb : Nat → Bool) (k fuel : Nat)
    (hfuel : k < fuel)
    (hb : ∀ j, j < k → tb j = false ∧ pollStep (env j) = StepOut.notReady)
    (htb : tb k = false) (hk : pollStep (env k) = StepOut.ready) :
    runGate env tb fuel = GateResult.Ready (k + 1) := by
  have hsplit : fuel = (fuel - k) + k := by omega
  rw [runGate, hsplit, runGateFrom_shift env tb k (fuel - k) 0 ?_]
  · have : 0 + k = k := by omega
    rw [this]
    obtain ⟨m, hm⟩ : ∃ m, fuel - k = m + 1 := ⟨fuel - k - 1, by omega⟩
    rw [hm]
    simp [runGateFrom, htb, hk]
  · intro j hj
    have := hb j hj
    simpa using this

/-- If the first `k` polls answer with a non-200 status and the signal is
observed before the `k`-th tick, the gate ends `Cancelled` with exit code
0 after `k` health requests. -/
lemma runGate_cancelled_of (env : Nat → DoResult) (tb : Nat → Bool) (k fuel : Nat)
    (hfuel : k < fuel)
    (hb : ∀ j, j < k → tb j = false ∧ pollStep (env j) = StepOut.notReady)
    (htb : tb k = true) :
    runGate env tb fuel = GateResult.Cancelled k := by
  have hsplit : fuel = (fuel - k) + k := by omega
  rw [runGate, hsplit, runGateFrom_shift env tb k (fuel - k) 0 ?_]
  · have : 0 + k = k := by omega
    rw [this]
    obtain ⟨m, hm⟩ : ∃ m, fuel - k = m + 1 := ⟨fuel - k - 1, by omega⟩
    rw [hm]
    simp [runGateFrom, htb]
  · intro j hj
    have := hb j hj
    simpa using this

/-- Claim C2: for every run of the readiness gate, health requests are
issued at a fixed 500 ms poll interval; a 200 response at the `k`-th poll
ends the gate with `Ready`, and every non-200 response before it is
retried silently — for arbitrary `k`, so there is no backoff and no limit
on the number of not-ready responses. -/
theorem readiness_gate_polls_until_ok (s : Nat → Nat) (k fuel : Nat)
    (hfuel : k < fuel) (hk : s k = 200) (hb : ∀ j, j < k → s j ≠ 200) :
    runGate (fun j => DoResult.ok (s j)) (fun _ => false) fuel = GateResult.Ready (k + 1)
    ∧ (∀ j, pollTimeMs (j + 1) - pollTimeMs j = 500) := by
  constructor
  · apply runGate_ready_of _ _ k fuel hfuel
    · intro j hj
      refine ⟨rfl, ?_⟩
      simp [pollStep, DoResult.ok, hb j hj]
    · rfl
    · simp [pollStep, DoResult.ok, hk]
  · intro j
    simp only [pollTimeMs]
    omega

/-- Witness for C2: with 503 answered at the first two polls and 200 at
the third, the gate returns `Ready` after exactly 3 health requests. -/
theorem readiness_gate_polls_until_ok_witness :
    runGate (fun j => DoResult.ok (if j < 2 then 503 else 200)) (fun _ => false) 10
      = GateResult.Ready 3 :=
  (readiness_gate_polls_until_ok (fun j => if j < 2 then 503 else 200) 2 10
    (by decide) (by decide) (by decide)).1

/-- Claim C3 (code bug): on a poll whose HTTP request returns a
transport-level error, the gate does not reach the error branch
(`exitErr`): the statement `defer resp.Body.Close()` dereferences the nil
response first, so the run ends in a nil-pointer panic.  Evaluated at the
concrete failing input of a transport error on the very first poll. -/
theorem readiness_gate_transport_error_nil_deref :
    runGate (fun _ => DoResult.transportError) (fun _ => false) 10 = GateResult.PanicNil 1
    ∧ pollStep DoResult.transportError ≠ StepOut.exitErr
    ∧ (GateResult.PanicNil 1).exitCode ≠ some 1 := by
  refine ⟨rfl, by decide, by decide⟩

/-- The C4 scenario environment: each poll is answered 503 while its time
is before 1.5 s and 200 from 1.5 s on. -/
def scenarioEnv : Nat → DoResult :=
  fun j => DoResult.ok (if pollTimeMs j < 1500 then 503 else 200)

/-- The gate run of the C4 scenario. -/
def gateScenario : GateResult := runGate scenarioEnv (fun _ => false) 10

/-- Claim C4 counterexample: in the 503-until-1.5s scenario the gate does
not make 4 health requests in total (3 unsuccessful plus the successful
one), because the ticker's first tick is only at t = 0.5 s. -/
theorem gate_scenario_not_three_prior_polls : gateScenario ≠ GateResult.Ready 4 := by
  decide

/-- Claim C4 as amended: in the 503-until-1.5s scenario the gate returns
`Ready` at t = 1.5 s (the third poll, issued at `pollTimeMs 2`), having
made exactly 2 prior unsuccessful polls — 3 health requests in total. -/
theorem gate_scenario_two_prior_polls :
    gateScenario = GateResult.Ready 3 ∧ pollTimeMs 2 = 1500 := by
  decide

/-- Claim C10: the first health request is issued only after one full
500 ms poll interval has elapsed — the gate waits for the first ticker
tick before polling, so no request happens at gate start, and every
request time is at least 500 ms. -/
theorem first_poll_after_one_interval :
    pollTimeMs 0 = 500 ∧ ∀ k, 500 ≤ pollTimeMs k := by
  constructor
  · rfl
  · intro k
    simp only [pollTimeMs]
    omega

/-- Claim C5: a termination signal observed while the gate is still
polling ends the gate with `Cancelled` and exit code 0, and the
signal-listener actor never converts a signal into an error: its run
returns nil on both select branches. -/
theorem gate_term_signal_clean_exit (env : Nat → DoResult) (tb : Nat → Bool) (k fuel : Nat)
    (hfuel : k < fuel) (htb : tb k = true)
    (hb : ∀ j, j < k → tb j = false ∧ pollStep (env j) = StepOut.notReady) :
    runGate env tb fuel = GateResult.Cancelled k
    ∧ (runGate env tb fuel).exitCode = some 0
    ∧ (∀ b, signalActorRun b = none) := by
  have h := runGate_cancelled_of env tb k fuel hfuel hb htb
  exact ⟨h, by rw [h]; rfl, fun _ => rfl⟩

/-- Witness for C5: one not-ready poll, then the signal fires before the
second tick; the gate cancels with exit code 0. -/
theorem gate_term_signal_clean_exit_witness :
    runGate (fun _ => DoResult.ok 503) (fun j => decide (j = 1)) 10 = GateResult.Cancelled 1
    ∧ (runGate (fun _ => DoResult.ok 503) (fun j => decide (j = 1)) 10).exitCode = some 0
    ∧ (∀ b, signalActorRun b = none) :=
  gate_term_signal_clean_exit (fun _ => DoResult.ok 503) (fun j => decide (j = 1)) 1 10
    (by decide) (by decide) (by decide)

/-! ### The actor supervisor (main.go lines 131-179)

`main` registers three actors (reload watcher, signal listener, metrics
server) in a `run.Group` and calls `g.Run()`.  The `run.Group`
implementation (the `oklog/run` package) is not part of this
repository's sources, so the supervisor is modelled from the spec.
-/

/-- An observable supervisor action: actor `i`'s run call returning, or
the supervisor invoking `interrupt()` on actor `i`. -/
inductive SupEvent where
  | returned (i : Nat)
  | interrupted (i : Nat)
deriving DecidableEq, Repr

/-- Modelled from the spec: the Actor Supervisor's event trace.  The
`run.Group` implementation behind `g.Run()` (main.go line 175) is not
under src/, so this follows the spec's supervisor contract: on the first
actor to return, the supervisor invokes `interrupt()` on every other
actor exactly once, then waits for all remaining actors to return before
returning itself.  An execution of `n` actors is abstracted by the order
in which the actors' run calls return, a list of actor indices. -/
def supervisorTrace (n : Nat) (order : List Nat) : List SupEvent :=
  match order with
  | [] => []
  | first :: rest =>
    SupEvent.returned first ::
      (((List.range n).filter (fun j => j != first)).map SupEvent.interrupted
        ++ rest.map SupEvent.returned)

/-- Modelled from the spec: the Actor Supervisor's final result — the
outcome of the first actor, in return order, that returned with a
failure, or success (`none`) when every actor returned without failure. -/
def supervisorResult (outcome : Nat → Option String) : List Nat → Option String
  | [] => none
  | i :: rest =>
    match outcome i with
    | some e => some e
    | none => supervisorResult outcome rest

lemma count_interrupted_map_interrupted (j : Nat) (l : List Nat) :
    (l.map SupEvent.interrupted).count (SupEvent.interrupted j) = l.count j := by
  induction l with
  | nil => rfl
  | cons a t ih =>
    simp only [List.map_cons, List.count_cons, ih]
    by_cases h : a = j <;> simp [h]

lemma count_interrupted_map_returned (j : Nat) (l : List Nat) :
    (l.map SupEvent.returned).count (SupEvent.interrupted j) = 0 := by
  induction l with
  | nil => rfl
  | cons a t ih => simp [List.count_cons, ih]

lemma count_returned_map_interrupted (i : Nat) (l : List Nat) :
    (l.map SupEvent.interrupted).count (SupEvent.returned i) = 0 := by
  induction l with
  | nil => rfl
  | cons a t ih => simp [List.count_cons, ih]

lemma count_returned_map_returned (i : Nat) (l : List Nat) :
    (l.map SupEvent.returned).count (SupEvent.returned i) = l.count i := by
  induction l with
  | nil => rfl
  | cons a t ih =>
    simp only [List.map_cons, List.count_cons, ih]
    by_cases h : a = i <;> simp [h]

lemma supervisorResult_eq_head_filterMap (outcome : Nat → Option String) :
    ∀ l : List Nat, supervisorResult outcome l = (l.filterMap outcome).head? := by
  intro l
  induction l with
  | nil => rfl
  | cons i rest ih =>
    cases h : outcome i with
    | none => simp [supervisorResult, List.filterMap_cons, h, ih]
    | some e => simp [supervisorResult, List.filterMap_cons, h]

/-- Claim C1: when the actors' run calls return in the order
`first :: rest` (a permutation of the `n` registered actors), the
supervisor invokes `interrupt()` exactly once on every actor other than
the first to return and never on the first, its trace contains every
actor's return (it does not return until every run call has returned),
and its result is the error of the first actor that returned a failure
(success when none failed). -/
theorem supervisor_shutdown_totality (n first : Nat) (rest : List Nat)
    (outcome : Nat → Option String)
    (hperm : (first :: rest).Perm (List.range n)) :
    (∀ j, j < n → j ≠ first →
        (supervisorTrace n (first :: rest)).count (SupEvent.interrupted j) = 1)
    ∧ (supervisorTrace n (first :: rest)).count (SupEvent.interrupted first) = 0
    ∧ (∀ i, i < n →
        (supervisorTrace n (first :: rest)).count (SupEvent.returned i) = 1)
    ∧ supervisorResult outcome (first :: rest)
        = ((first :: rest).filterMap outcome).head? := by
  have hnodup : (first :: rest).Nodup := hperm.symm.nodup (List.nodup_range n)
  have hfl : ((List.range n).filter (fun j => j != first)).Nodup :=
    (List.nodup_range n).filter _
  refine ⟨?_, ?_, ?_, supervisorResult_eq_head_filterMap outcome _⟩
  · intro j hj hne
    simp only [supervisorTrace, List.count_cons, List.count_append,
      count_interrupted_map_interrupted, count_interrupted_map_returned]
    have hmem : j ∈ (List.range n).filter (fun j => j != first) := by
      simp [List.mem_filter, List.mem_range, hj, hne]
    rw [List.count_eq_one_of_mem hfl hmem]
    simp
  · simp only [supervisorTrace, List.count_cons, List.count_append,
      count_interrupted_map_interrupted, count_interrupted_map_returned]
    have hnmem : first ∉ (List.range n).filter (fun j => j != first) := by
      simp [List.mem_filter]
    rw [List.count_eq_zero_of_not_mem hnmem]
    simp
  · intro i hi
    have hmem : i ∈ first :: rest := hperm.mem_iff.mpr (List.mem_range.mpr hi)
    simp only [supervisorTrace, List.count_cons, List.count_append,
      count_returned_map_interrupted, count_returned_map_returned]
    rcases List.mem_cons.mp hmem with h | h
    · subst h
      have h0 : rest.count i = 0 := by
        rw [List.count_eq_zero]
        intro hmem2
        exact (List.nodup_cons.mp hnodup).1 hmem2
      simp [h0]
    · have hne : first ≠ i := by
        intro he
        exact (List.nodup_cons.mp hnodup).1 (he ▸ h)
      have : rest.count i = 1 :=
        List.count_eq_one_of_mem (List.nodup_cons.mp hnodup).2 h
      simp [this, hne]

/-- Witness for C1: three actors returning in the order 1, 0, 2 with
actor 2 failing: actors 0 and 2 are each interrupted exactly once, actor
1 never, every actor's return is in the trace, and the result is actor
2's error. -/
theorem supervisor_shutdown_totality_witness :
    (supervisorTrace 3 [1, 0, 2]).count (SupEvent.interrupted 0) = 1
    ∧ (supervisorTrace 3 [1, 0, 2]).count (SupEvent.interrupted 1) = 0
    ∧ (supervisorTrace 3 [1, 0, 2]).count (SupEvent.returned 1) = 1
    ∧ supervisorResult (fun i => if i = 2 then some "bind failed" else none) [1, 0, 2]
        = some "bind failed" := by
  have h := supervisor_shutdown_totality 3 1 [0, 2]
    (fun i => if i = 2 then some "bind failed" else none) (by decide)
  exact ⟨h.1 0 (by decide) (by decide), h.2.1, h.2.2.1 1 (by decide),
    by rw [h.2.2.2]; rfl⟩

/-! ### The main function as a sequential trace (main.go lines 37-180) -/

/-- The environment-dependent outcomes that determine one run of `main`:
whether `url.Parse(*reloadURLStr)` succeeds (line 64), whether
`http.NewRequest` succeeds (line 76), how the readiness-gate goroutine
ends, and what `g.Run()` returns (line 175). -/
structure MainInput where
  reloadURLParses : Bool
  readyRequestOk : Bool
  gate : GateResult
  supervisorErr : Option String
deriving DecidableEq, Repr

/-- An observable step of `main`, in program order. -/
inductive MainEvent where
  /-- The readiness gate signalled `done` after `polls` health requests. -/
  | gateReady (polls : Nat)
  /-- `reloader.New` ran (line 113). -/
  | reloaderConstructed
  /-- `g.Add` registered actor `i`: 0 reload watcher, 1 signal listener,
  2 metrics server (lines 131-173). -/
  | actorAdded (i : Nat)
  /-- `g.Run()` was invoked (line 175). -/
  | supervisorRan
  /-- The process exited with this code. -/
  | exited (code : Nat)
deriving DecidableEq, Repr

/-- The sequential trace of `main`: parse the reload URL (exit 1 on
failure), build the readiness request (exit 1 on failure), block on the
readiness gate (`<-done`, line 111) — the gate goroutine itself exits the
process on signal (code 0), on transport error (code 1 via the error
branch) or by panicking (code 2) — and only on `Ready` construct the
reloader, register the three actors, run the supervisor, and exit 1 on a
supervisor error or 0 otherwise. -/
def mainTrace (inp : MainInput) : List MainEvent :=
  if inp.reloadURLParses = false then [MainEvent.exited 1]
  else if inp.readyRequestOk = false then [MainEvent.exited 1]
  else
    match inp.gate with
    | GateResult.Cancelled _ => [MainEvent.exited 0]
    | GateResult.ExitErr _ => [MainEvent.exited 1]
    | GateResult.PanicNil _ => [MainEvent.exited 2]
    | GateResult.Spin => []
    | GateResult.Ready p =>
      MainEvent.gateReady p :: MainEvent.reloaderConstructed ::
        MainEvent.actorAdded 0 :: MainEvent.actorAdded 1 :: MainEvent.actorAdded 2 ::
        MainEvent.supervisorRan ::
        (match inp.supervisorErr with
         | some _ => [MainEvent.exited 1]
         | none => [MainEvent.exited 0])

/-- The process exit code of a run of `main`, read off its trace
(`none` when the run never exits). -/
def mainExitCode (inp : MainInput) : Option Nat :=
  (mainTrace inp).foldr
    (fun e acc =>
      match e with
      | MainEvent.exited c => some c
      | _ => acc)
    none

/-- Claim C6: a setup error (reload URL fails to parse, or the readiness
request cannot be constructed) exits with code 1 before any actor is
registered; a failure reported by the supervisor exits with code 1; and
when the supervisor runs and reports no error the process exits with
code 0. -/
theorem main_exit_code_policy (inp : MainInput) :
    ((inp.reloadURLParses = false ∨ inp.readyRequestOk = false) →
      mainExitCode inp = some 1 ∧ ∀ i, MainEvent.actorAdded i ∉ mainTrace inp)
    ∧ (∀ p e, inp.reloadURLParses = true → inp.readyRequestOk = true →
        inp.gate = GateResult.Ready p → inp.supervisorErr = some e →
        mainExitCode inp = some 1)
    ∧ (∀ p, inp.reloadURLParses = true → inp.readyRequestOk = true →
        inp.gate = GateResult.Ready p → inp.supervisorErr = none →
        mainExitCode inp = some 0) := by
  obtain ⟨u, r, g, s⟩ := inp
  refine ⟨?_, ?_, ?_⟩
  · rintro (h | h)
    · subst h
      simp [mainTrace, mainExitCode]
    · subst h
      cases u <;> simp [mainTrace, mainExitCode]
  · rintro p e hu hr hg hs
    subst hu; subst hr; cases hg; subst hs
    simp [mainTrace, mainExitCode]
  · rintro p hu hr hg hs
    subst hu; subst hr; cases hg; subst hs
    simp [mainTrace, mainExitCode]

/-- Witness for C6: a run whose reload URL fails to parse exits with code
1 and registers no actor; a run reaching the supervisor with no error
exits with code 0. -/
theorem main_exit_code_policy_witness :
    mainExitCode ⟨false, true, GateResult.Spin, none⟩ = some 1
    ∧ MainEvent.actorAdded 0 ∉ mainTrace ⟨false, true, GateResult.Spin, none⟩
    ∧ mainExitCode ⟨true, true, GateResult.Ready 3, none⟩ = some 0 :=
  ⟨((main_exit_code_policy ⟨false, true, GateResult.Spin, none⟩).1 (Or.inl rfl)).1,
   ((main_exit_code_policy ⟨false, true, GateResult.Spin, none⟩).1 (Or.inl rfl)).2 0,
   (main_exit_code_policy ⟨true, true, GateResult.Ready 3, none⟩).2.2 3 rfl rfl rfl rfl⟩

/-- Claim C7: no actor is registered before the readiness gate has
returned `Ready` — wherever an `actorAdded` event occurs in the trace of
`main`, a `gateReady` event strictly precedes it. -/
theorem actors_start_only_after_ready (inp : MainInput) (i : Nat)
    (l₁ l₂ : List MainEvent)
    (h : mainTrace inp = l₁ ++ MainEvent.actorAdded i :: l₂) :
    ∃ p, MainEvent.gateReady p ∈ l₁ := by
  obtain ⟨u, r, g, s⟩ := inp
  cases u
  · exfalso
    have : MainEvent.actorAdded i ∈ mainTrace ⟨false, r, g, s⟩ := by
      rw [h]; simp
    simp [mainTrace] at this
  cases r
  · exfalso
    have : MainEvent.actorAdded i ∈ mainTrace ⟨true, false, g, s⟩ := by
      rw [h]; simp
    simp [mainTrace] at this
  cases g with
  | Ready p =>
    refine ⟨p, ?_⟩
    cases l₁ with
    | nil =>
      exfalso
      simp [mainTrace] at h
    | cons a t =>
      have ha : a = MainEvent.gateReady p := by
        have := congrArg List.head? h
        simp [mainTrace] at this
        exact this.symm
      rw [ha]
      exact List.mem_cons_self _ _
  | Cancelled p =>
    exfalso
    have : MainEvent.actorAdded i ∈ mainTrace ⟨true, true, GateResult.Cancelled p, s⟩ := by
      rw [h]; simp
    simp [mainTrace] at this
  | ExitErr p =>
    exfalso
    have : MainEvent.actorAdded i ∈ mainTrace ⟨true, true, GateResult.ExitErr p, s⟩ := by
      rw [h]; simp
    simp [mainTrace] at this
  | PanicNil p =>
    exfalso
    have : MainEvent.actorAdded i ∈ mainTrace ⟨true, true, GateResult.PanicNil p, s⟩ := by
      rw [h]; simp
    simp [mainTrace] at this
  | Spin =>
    exfalso
    have : MainEvent.actorAdded i ∈ mainTrace ⟨true, true, GateResult.Spin, s⟩ := by
      rw [h]; simp
    simp [mainTrace] at this

/-- Witness for C7: in a successful run, the reload-watcher actor's
registration is preceded by the gate's `Ready` event. -/
theorem actors_start_only_after_ready_witness :
    ∃ p, MainEvent.gateReady p ∈
      [MainEvent.gateReady 3, MainEvent.reloaderConstructed] :=
  actors_start_only_after_ready ⟨true, true, GateResult.Ready 3, none⟩ 0
    [MainEvent.gateReady 3, MainEvent.reloaderConstructed]
    [MainEvent.actorAdded 1, MainEvent.actorAdded 2, MainEvent.supervisorRan,
      MainEvent.exited 0]
    (by decide)

/-! ### The metrics server's shutdown grace period (main.go lines 157-173) -/

/-- The grace period, in milliseconds, that bounds the metrics server's
graceful shutdown: `context.WithTimeout(context.Background(),
time.Minute)` (main.go line 166). -/
def metricsShutdownGraceMs : Nat := 60 * 1000

/-- The interrupt function of the metrics-server actor (main.go lines
165-172): it calls `server.Shutdown` with the one-minute timeout context;
the server stops accepting new connections, and the shutdown completes
gracefully exactly when the in-flight requests finish within the grace
period — otherwise `Shutdown` returns the context's deadline error and
the attempt is abandoned (logged). -/
def metricsInterruptGraceful (inflightMs : Nat) : Bool :=
  inflightMs ≤ metricsShutdownGraceMs

/-- Claim C8: the metrics server's graceful shutdown is bounded by a
grace period of exactly one minute: in-flight work finishing within
60000 ms lets the shutdown complete, and any longer in-flight work makes
the shutdown attempt be abandoned. -/
theorem metrics_shutdown_grace_one_minute :
    metricsShutdownGraceMs = 60000
    ∧ (∀ d, d ≤ 60000 → metricsInterruptGraceful d = true)
    ∧ (∀ d, 60000 < d → metricsInterruptGraceful d = false) := by
  refine ⟨rfl, ?_, ?_⟩ <;> intro d hd <;> simp [metricsInterruptGraceful,
    metricsShutdownGraceMs] <;> omega

/-- Witness for C8: 60000 ms of in-flight work is within the grace
period; 60001 ms is not. -/
theorem metrics_shutdown_grace_one_minute_witness :
    metricsInterruptGraceful 60000 = true ∧ metricsInterruptGraceful 60001 = false :=
  ⟨metrics_shutdown_grace_one_minute.2.1 60000 (by decide),
   metrics_shutdown_grace_one_minute.2.2 60001 (by decide)⟩

/-! ### The CLI flag surface (main.go lines 38-52 and 182-191) -/

/-- Default of the `reload-url` flag (main.go line 46). -/
def defaultReloadURL : String := "http://127.0.0.1:19090/-/reload"

/-- Default of the `ready-url` flag (main.go line 47). -/
def defaultReadyURL : String := "http://127.0.0.1:19090/-/ready"

/-- Default of the `listen-address` flag (main.go line 48). -/
def defaultListenAddress : String := ":19091"

/-- `stringSlice.Set` (main.go lines 188-191): each occurrence of the
`watched-dir` flag appends its value to the slice. -/
def stringSliceSet (ss : List String) (value : String) : List String :=
  ss ++ [value]

lemma foldl_stringSliceSet (acc : List String) (vs : List String) :
    vs.foldl stringSliceSet acc = acc ++ vs := by
  induction vs generalizing acc with
  | nil => simp
  | cons v t ih => simp [List.foldl_cons, stringSliceSet, ih]

/-- Claim C9: the flag defaults match the spec's external interface —
`reload-url`, `ready-url` and `listen-address` default to the documented
values — and the `watched-dir` flag is repeatable: starting from the
empty slice, processing any sequence of occurrences accumulates every
value, in order. -/
theorem flag_defaults_and_watched_dir_accumulation :
    defaultReloadURL = "http://127.0.0.1:19090/-/reload"
    ∧ defaultReadyURL = "http://127.0.0.1:19090/-/ready"
    ∧ defaultListenAddress = ":19091"
    ∧ (∀ ss v, stringSliceSet ss v = ss ++ [v])
    ∧ (∀ vs : List String, vs.foldl stringSliceSet [] = vs) := by
  refine ⟨rfl, rfl, rfl, fun ss v => rfl, fun vs => ?_⟩
  simp [foldl_stringSliceSet]

end ConfigReloader
